import Mathlib

/-!
Shallow embedding of the yt-analysis-automation pipeline
(src/main.py, src/utils/csv_processor.py, src/services/firestore_service.py,
src/services/openai_service.py) and proofs about the spec's claims.

Python strings are modelled as `String`, Python `None`-able values as
`Option`, machine integers as `Int` (Python ints are unbounded), raised
exceptions as `Except`/`Option` error values.  Each definition names the
source function it embeds.
-/

/-! ### Python-style string helpers (`str.lower`, `str.strip`, `in`, `split`) -/

/-- `str.lower()` (ASCII case folding, as the URLs and keywords here are ASCII). -/
def lowerStr (s : String) : String := ⟨s.data.map Char.toLower⟩

/-- Drop whitespace from both ends of a character list (`str.strip()`). -/
def trimChars (l : List Char) : List Char :=
  ((l.dropWhile Char.isWhitespace).reverse.dropWhile Char.isWhitespace).reverse

/-- `str.strip()` with no arguments. -/
def stripWs (s : String) : String := ⟨trimChars s.data⟩

/-- Substring search on character lists: `pat in hay` (Python `in` on str). -/
def subAux (pat : List Char) : List Char → Bool
  | [] => pat.isEmpty
  | c :: rest => pat.isPrefixOf (c :: rest) || subAux pat rest

/-- Python `pat in s` for strings. -/
def strContainsSub (s pat : String) : Bool := subAux pat.data s.data

/-- The suffix of `hay` starting at the first occurrence of `pat`
(Python `s[s.find(pat):]`, used only after an `in` guard). -/
def dropUntilSub (pat : List Char) : List Char → List Char
  | [] => []
  | c :: rest => if pat.isPrefixOf (c :: rest) then c :: rest else dropUntilSub pat rest

/-- Split a character list at every character satisfying `p`, keeping empty
segments (the shape of Python `str.split(sep)` for a one-character `sep`). -/
def splitOnPred (p : Char → Bool) : List Char → List (List Char)
  | [] => [[]]
  | d :: rest =>
    match splitOnPred p rest with
    | [] => [[]]
    | h :: t => if p d then [] :: h :: t else (d :: h) :: t

/-- Python `str.split()` (no argument): split on whitespace runs, dropping
empty tokens. -/
def wsTokens (l : List Char) : List (List Char) :=
  (splitOnPred Char.isWhitespace l).filter (fun t => !t.isEmpty)

/-- The character set of `.strip(',;()')` in `_extract_channel_url`. -/
def punctChars : List Char := [',', ';', '(', ')']

/-- `str.strip(',;()')`. -/
def stripPunct (l : List Char) : List Char :=
  ((l.dropWhile (· ∈ punctChars)).reverse.dropWhile (· ∈ punctChars)).reverse

/-- `url_part.split('/')[-1].split()[0].strip(',;()')` from
`CSVProcessor._extract_channel_url`; `none` models the `IndexError` raised by
`[0]` on an empty token list (caught by the surrounding `try`). -/
def lastSlashToken (l : List Char) : Option (List Char) :=
  match (splitOnPred (· = '/') l).getLast? with
  | none => none
  | some seg =>
    match wsTokens seg with
    | [] => none
    | t :: _ => some (stripPunct t)

/-- `url_part.split('/')` then `parts[1].split()[0].strip(',;()')` guarded by
`len(parts) >= 2`, from the generic branch of `_extract_channel_url`. -/
def secondSlashSeg (l : List Char) : Option (List Char) :=
  match splitOnPred (· = '/') l with
  | _ :: seg :: _ =>
    match wsTokens seg with
    | [] => none
    | t :: _ => some (stripPunct t)
  | _ => none

def charsOf (s : String) : List Char := s.data

def strOf (l : List Char) : String := ⟨l⟩

/-- `CSVProcessor._extract_channel_url` (src/utils/csv_processor.py:173-237):
extract a canonical channel URL from the placement text, or `None`.  Every
in-branch exception (only the `IndexError` from `[0]`) is caught and turns
into `None`. -/
def extractChannelUrl (placement : String) : Option String :=
  let p := placement.data
  if subAux (charsOf "youtube.com/channel/") p then
    (lastSlashToken (dropUntilSub (charsOf "youtube.com/channel/") p)).map
      (fun i => "https://www.youtube.com/channel/" ++ strOf i)
  else if subAux (charsOf "youtube.com/@") p then
    (lastSlashToken (dropUntilSub (charsOf "youtube.com/@") p)).map
      (fun h => "https://www.youtube.com/@" ++ strOf h)
  else if subAux (charsOf "youtube.com/c/") p then
    (lastSlashToken (dropUntilSub (charsOf "youtube.com/c/") p)).map
      (fun n => "https://www.youtube.com/c/" ++ strOf n)
  else if subAux (charsOf "youtube.com/user/") p then
    (lastSlashToken (dropUntilSub (charsOf "youtube.com/user/") p)).map
      (fun u => "https://www.youtube.com/user/" ++ strOf u)
  else if subAux (charsOf "youtube.com/") p then
    (secondSlashSeg (dropUntilSub (charsOf "youtube.com/") p)).map
      (fun i => "https://www.youtube.com/" ++ strOf i)
  else none

/-! ### CSV rows as Python's `csv.DictReader` yields them -/

/-- One CSV row: column name to nullable cell value.  A value of `none`
models Python `None`, which `DictReader` uses as `restval` for the missing
trailing cells of a short row. -/
structure Row where
  cells : List (String × Option String)
deriving Repr, DecidableEq

/-- Key lookup: `some v` when the key is present (with `v` its nullable
value), `none` when the key is absent from the row. -/
def Row.lookupKey (r : Row) (k : String) : Option (Option String) :=
  (r.cells.find? (fun p => p.1 == k)).map (fun p => p.2)

/-- Python `row.get(k, dflt)`: the stored value (even when it is `None`) if
the key exists, otherwise the default. -/
def Row.getCell (r : Row) (k : String) (dflt : Option String) : Option String :=
  match r.lookupKey k with
  | some v => v
  | none => dflt

/-- Python truthiness of a nullable string: `None` and `''` are falsy. -/
def pyTruthyStr : Option String → Bool
  | none => false
  | some s => !s.isEmpty

/-- Python `a or b` on nullable strings. -/
def pyOrS (a b : Option String) : Option String := if pyTruthyStr a then a else b

/-- `(row.get('Placement (All YouTube Channels)') or row.get('Placement') or '').strip()`
(csv_processor.py:92). -/
def placementOf (r : Row) : String :=
  stripWs ((pyOrS (pyOrS (r.getCell "Placement (All YouTube Channels)" none)
      (r.getCell "Placement" none)) (some "")).getD "")

/-- `row.get('Placement Name (All YouTube Channels)', row.get('Placement Name', ''))`
(csv_processor.py:105).  The result is Python `None` (`none`) when the key
exists but the cell was missing from a short row. -/
def placementNameOf (r : Row) : Option String :=
  match r.lookupKey "Placement Name (All YouTube Channels)" with
  | some v => v
  | none =>
    match r.lookupKey "Placement Name" with
    | some v => v
    | none => some ""

/-- Digits-only value of a character list, `none` if empty or not all digits. -/
def digitsVal (ds : List Char) : Option Nat :=
  if ds.isEmpty then none
  else if ds.all Char.isDigit then
    some (ds.foldl (fun a c => a * 10 + (c.toNat - 48)) 0)
  else none

/-- Python `int(str)` on a comma-free, stripped string: optional sign then
digits; `none` models the `ValueError`. -/
def parseIntPy (l : List Char) : Option Int :=
  match l with
  | '-' :: ds => (digitsVal ds).map (fun n => -(n : Int))
  | '+' :: ds => (digitsVal ds).map (fun n => (n : Int))
  | ds => (digitsVal ds).map (fun n => (n : Int))

/-- `str.replace(',', '')`. -/
def removeCommas (l : List Char) : List Char := l.filter (fun c => c ≠ ',')

/-- `CSVProcessor._parse_impressions(row.get('Impressions', '0'))`
(csv_processor.py:104, 239-253): strip commas and whitespace, parse as int,
return 0 on `ValueError` (bad text) or `AttributeError` (value is `None`). -/
def parseImpressions : Option (Option String) → Int
  | none => 0
  | some none => 0
  | some (some s) => (parseIntPy (trimChars (removeCommas s.data))).getD 0

/-- Aggregate per canonical channel URL, as built by
`CSVProcessor.extract_youtube_channels`.  Python `set`s of nullable strings
become insertion-ordered duplicate-free lists. -/
structure ChannelData where
  placement_name : String
  impressions : Int
  advertisers : List (Option String)
  insertion_orders : List (Option String)
deriving Repr, DecidableEq

/-- Python `set.add`. -/
def setAdd (l : List (Option String)) (x : Option String) : List (Option String) :=
  if x ∈ l then l else l ++ [x]

/-- In-place update of a `defaultdict` entry keyed by `url`: existing entries
keep their position, a fresh key is appended with `f` applied to the default
record. -/
def updAssoc (acc : List (String × ChannelData)) (url : String)
    (f : ChannelData → ChannelData) : List (String × ChannelData) :=
  match acc with
  | [] => [(url, f ⟨"", 0, [], []⟩)]
  | (k, v) :: rest =>
    if k == url then (k, f v) :: rest else (k, v) :: updAssoc rest url f

/-- One iteration of the row loop in `CSVProcessor.extract_youtube_channels`
(csv_processor.py:90-118).  `Except.error` models an uncaught per-row
exception: the only one is the `AttributeError` from
`placement_name.strip()` when the placement-name cell is Python `None`
(line 108); there is no per-row handler, so it escapes to the whole-function
`try`, which logs and re-raises. -/
def processRow (cd : List (String × ChannelData)) (r : Row) :
    Except Unit (List (String × ChannelData)) :=
  let placement := placementOf r
  if placement.isEmpty || !(strContainsSub (lowerStr placement) "youtube.com") then
    .ok cd
  else
    match extractChannelUrl placement with
    | none => .ok cd
    | some url =>
      let imp := parseImpressions (r.lookupKey "Impressions")
      match placementNameOf r with
      | none => .error ()
      | some pname =>
        if lowerStr (stripWs pname) == "unknown" then .ok cd
        else
          .ok (updAssoc cd url (fun c =>
            ⟨pname, c.impressions + imp,
             setAdd c.advertisers (r.getCell "Advertiser" (some "Unknown")),
             setAdd c.insertion_orders (r.getCell "Insertion Order" (some "Unknown"))⟩))

/-- The row loop of `extract_youtube_channels`, stopping at the first
uncaught row exception. -/
def foldRows : List Row → List (String × ChannelData) →
    Except Unit (List (String × ChannelData))
  | [], acc => .ok acc
  | r :: rest, acc =>
    match processRow acc r with
    | .error e => .error e
    | .ok acc2 => foldRows rest acc2

/-- The descending-impressions order used at csv_processor.py:126-130
(`sorted(..., key=impressions, reverse=True)`). -/
def impGe (a b : String × ChannelData) : Prop := b.2.impressions ≤ a.2.impressions

instance : DecidableRel impGe := fun _ _ => inferInstanceAs (Decidable (_ ≤ _))

instance : IsTotal (String × ChannelData) impGe :=
  ⟨fun a b => le_total b.2.impressions a.2.impressions⟩

instance : IsTrans (String × ChannelData) impGe :=
  ⟨fun _ _ _ h1 h2 => le_trans h2 h1⟩

/-- `CSVProcessor.extract_youtube_channels` (csv_processor.py:70-143):
fold the rows into per-channel aggregates, then sort them by cumulative
impressions, descending.  Python's `sorted` is stable; a stable insertion
sort under the same total preorder produces the same ordering. -/
def extract_youtube_channels (rows : List Row) :
    Except Unit (List (String × ChannelData)) :=
  match foldRows rows [] with
  | .error e => .error e
  | .ok cd => .ok (List.insertionSort impGe cd)

/-! ### Category Store (src/services/firestore_service.py) -/

/-- The fields of a cached document that the router reads after a cache hit
(main.py:225-231, 254-261): `cached['channel_name']`, `['is_children_content']`,
`['confidence']`, `['reasoning']`. -/
structure CachedRec where
  channel_name : String
  is_children_content : Bool
  confidence : String
  reasoning : String
deriving Repr, DecidableEq

/-- Outcome of one Firestore document read inside
`batch_get_cached_categories`: a found document, a missing one, or a raised
exception. -/
inductive FetchOutcome where
  | found : CachedRec → FetchOutcome
  | missing : FetchOutcome
  | err : FetchOutcome
deriving Repr, DecidableEq

def FetchOutcome.isErr : FetchOutcome → Bool
  | .err => true
  | _ => false

/-- Contiguous slices of size `n` (`[l[i:i+n] for i in range(0, len(l), n)]`),
via a structural fuel so that concrete inputs evaluate in the kernel. -/
def chunksOfAux (n : Nat) : Nat → List α → List (List α)
  | 0, _ => []
  | _, [] => []
  | Nat.succ fuel, l => l.take n :: chunksOfAux n fuel (l.drop n)

def chunksOf (n : Nat) (l : List α) : List (List α) := chunksOfAux n l.length l

/-- The `(url, doc.to_dict())` pair contributed by one URL of a batch when
its document exists. -/
def pairOf (fetch : String → FetchOutcome) (u : String) : Option (String × CachedRec) :=
  match fetch u with
  | .found r => some (u, r)
  | _ => none

/-- One 500-URL batch of `batch_get_cached_categories`
(firestore_service.py:113-126).  The document reads happen in a list
comprehension before any result is recorded, so a raised read aborts the
whole batch contributing nothing (`none`); otherwise the found pairs are
returned. -/
def processChunk (fetch : String → FetchOutcome) (urls : List String) :
    Option (List (String × CachedRec)) :=
  if urls.any (fun u => (fetch u).isErr) then none
  else some (urls.filterMap (pairOf fetch))

/-- The batch loop of `batch_get_cached_categories`: the surrounding `try`
catches the first raised read, so the accumulated results of the complete
prior batches are returned and nothing is re-raised. -/
def batchGetAux (fetch : String → FetchOutcome) : List (List String) →
    List (String × CachedRec)
  | [] => []
  | c :: cs =>
    match processChunk fetch c with
    | none => []
    | some rs => rs ++ batchGetAux fetch cs

/-- `FirestoreService.batch_get_cached_categories` (firestore_service.py:97-133):
read the documents of the given URLs in batches of 500; on an exception,
swallow it and return what was accumulated so far. -/
def batch_get_cached_categories (fetch : String → FetchOutcome)
    (channel_urls : List String) : List (String × CachedRec) :=
  batchGetAux fetch (chunksOf 500 channel_urls)

/-- `cached_results[url]` membership/lookup on the mapping returned by the
batch cache read (a Python dict keyed by URL). -/
def lookupRec (cached : List (String × CachedRec)) (url : String) : Option CachedRec :=
  (cached.find? (fun p => p.1 == url)).map (fun p => p.2)

/-- The classifier verdict as flattened by `OpenAIService.categorize_channel`
(openai_service.py:173-198): the three compliance fields plus, for a
successful parse, the enrichment block.  The retry-exhaustion default
(openai_service.py:237-241) carries only the three core fields, so
`enrichment` is `none` there. -/
structure Enrichment where
  content_vertical : String
  content_niche : String
  content_format : String
  brand_safety_score : String
  premium_suitable : Bool
  geographic_focus : String
  primary_language : String
  purchase_intent : String
  summary : String
deriving Repr, DecidableEq

structure CatResult where
  is_children_content : Bool
  confidence : String
  reasoning : String
  enrichment : Option Enrichment
deriving Repr, DecidableEq

/-- One categorization result dict as passed to `batch_save_categories`:
`channel_url`, `channel_name` plus the categorization fields
(main.py:57-64). -/
structure CatRow where
  channel_url : String
  channel_name : String
  cat : CatResult
deriving Repr, DecidableEq

/-- A persisted document, with exactly the keys `save_data` writes in
`FirestoreService.batch_save_categories` (firestore_service.py:155-175).
The server-assigned `created_at`/`updated_at` timestamps and the optional
`metadata`/`full_analysis` audit blobs are not modelled; no claim reads
them.  Note the schema has no impressions, advertiser or insertion-order
fields. -/
structure SavedRecord where
  channel_url : String
  channel_name : String
  is_children_content : Bool
  confidence : String
  reasoning : String
  content_vertical : String
  content_niche : String
  content_format : String
  brand_safety_score : String
  premium_suitable : Bool
  geographic_focus : String
  primary_language : String
  purchase_intent : String
  summary : String
  version : String
deriving Repr, DecidableEq

/-- The `save_data` dict built for one record (firestore_service.py:155-175):
`data.get(...)` defaulting applied to the flattened categorization. -/
def saveDataOf (row : CatRow) : SavedRecord :=
  { channel_url := row.channel_url
    channel_name := row.channel_name
    is_children_content := row.cat.is_children_content
    confidence := row.cat.confidence
    reasoning := row.cat.reasoning
    content_vertical := (row.cat.enrichment.map Enrichment.content_vertical).getD ""
    content_niche := (row.cat.enrichment.map Enrichment.content_niche).getD ""
    content_format := (row.cat.enrichment.map Enrichment.content_format).getD ""
    brand_safety_score := (row.cat.enrichment.map Enrichment.brand_safety_score).getD ""
    premium_suitable := (row.cat.enrichment.map Enrichment.premium_suitable).getD true
    geographic_focus := (row.cat.enrichment.map Enrichment.geographic_focus).getD ""
    primary_language := (row.cat.enrichment.map Enrichment.primary_language).getD ""
    purchase_intent := (row.cat.enrichment.map Enrichment.purchase_intent).getD ""
    summary := (row.cat.enrichment.map Enrichment.summary).getD ""
    version := "2.0" }

/-- `FirestoreService.batch_save_categories` (firestore_service.py:135-193):
an idempotent upsert of each record keyed by its sanitized URL; the records
written are exactly the `save_data` mappings (the 500-operation batching
changes only the commit granularity, not the written content). -/
def batch_save_categories (categories_data : List CatRow) : List SavedRecord :=
  categories_data.map saveDataOf

/-- The document-read behaviour of a store holding `store` (keyed here by
the channel URL; `_sanitize_doc_id` is deterministic, so two reads of one
URL hit the same document). -/
def fetchOfStore (store : List SavedRecord) : String → FetchOutcome :=
  fun u =>
    match store.find? (fun s => s.channel_url == u) with
    | some s => .found ⟨s.channel_name, s.is_children_content, s.confidence, s.reasoning⟩
    | none => .missing

/-- The public callables defined on `FirestoreService`
(src/services/firestore_service.py:13-291), in source order. -/
def firestoreServiceMethods : List String :=
  ["get_cached_category", "save_category", "batch_get_cached_categories",
   "batch_save_categories", "update_category", "delete_category",
   "get_stats", "_sanitize_doc_id", "query_children_channels"]

/-- The store method the orchestrator invokes at Step 9
(main.py:408: `firestore_service.get_all_channels()`). -/
def step9StoreCall : String := "get_all_channels"

/-! ### Classification Router (main.py, Steps 5 and 6, lines 194-270) -/

/-- Step 5 keyword test (main.py:198-201):
`any(keyword.lower() in data.get('placement_name', '').lower() for keyword in keywords)`. -/
def keywordMatch (keywords : List String) (data : ChannelData) : Bool :=
  keywords.any (fun kw => strContainsSub (lowerStr data.placement_name) (lowerStr kw))

/-- The `keyword_matched` dict of Step 5. -/
def keyword_matched (keywords : List String) (cd : List (String × ChannelData)) :
    List (String × ChannelData) :=
  cd.filter (fun p => keywordMatch keywords p.2)

/-- The `needs_analysis` dict of Step 5. -/
def needs_analysis (keywords : List String) (cd : List (String × ChannelData)) :
    List (String × ChannelData) :=
  cd.filter (fun p => !(keywordMatch keywords p.2))

/-- One per-channel result row of the run (`final_results` entries,
main.py:226-236 and elsewhere). -/
structure RunResult where
  channel_url : String
  channel_name : String
  is_children_content : Bool
  confidence : String
  reasoning : String
  impressions : Int
  advertisers : List (Option String)
  insertion_orders : List (Option String)
  cached : Bool
deriving Repr, DecidableEq

/-- The `final_results` entry built from a cache hit (main.py:226-236,
256-266): the stored record's classification fields plus this run's
impression aggregates, marked `cached: True`. -/
def mkCachedResult (url : String) (data : ChannelData) (rec : CachedRec) : RunResult :=
  ⟨url, rec.channel_name, rec.is_children_content, rec.confidence, rec.reasoning,
   data.impressions, data.advertisers, data.insertion_orders, true⟩

/-- The `auto_flagged_new` bucket (main.py:222-245): keyword-matched
channels with no cached record. -/
def auto_flagged_new (keywords : List String) (cached : List (String × CachedRec))
    (cd : List (String × ChannelData)) : List (String × ChannelData) :=
  (keyword_matched keywords cd).filter (fun p => (lookupRec cached p.1).isNone)

/-- The cache-served `final_results` entries produced in Step 6: first the
keyword-matched loop (main.py:222-236), then the needs-analysis loop
(main.py:249-266). -/
def step6_cached_results (keywords : List String) (cached : List (String × CachedRec))
    (cd : List (String × ChannelData)) : List RunResult :=
  ((keyword_matched keywords cd).filterMap
      (fun p => (lookupRec cached p.1).map (mkCachedResult p.1 p.2)))
    ++ ((needs_analysis keywords cd).filterMap
      (fun p => (lookupRec cached p.1).map (mkCachedResult p.1 p.2)))

/-- The `channels_to_analyze` list (main.py:248-251): not keyword-matched
and not cached; only these are ever sent to the Classifier (Step 7). -/
def channels_to_analyze (keywords : List String) (cached : List (String × CachedRec))
    (cd : List (String × ChannelData)) : List String :=
  ((needs_analysis keywords cd).filter (fun p => (lookupRec cached p.1).isNone)).map
    (fun p => p.1)

/-! ### Classifier (src/services/openai_service.py) -/

/-- What one attempt of the `while retry_count < max_retries` loop in
`OpenAIService.categorize_channel` (openai_service.py:108-231) observes. -/
inductive Attempt where
  /-- The API call succeeded and the response validated; carries the
  flattened result (openai_service.py:173-198). -/
  | success : CatResult → Attempt
  /-- Response parsed but missed a required section (openai_service.py:161-165). -/
  | invalidFormat : Attempt
  /-- `json.JSONDecodeError` (openai_service.py:207-210). -/
  | jsonError : Attempt
  /-- `requests.exceptions.RequestException` with the stringified error
  (openai_service.py:212-224). -/
  | requestError : String → Attempt
  /-- Any other exception (openai_service.py:226-231). -/
  | otherError : Attempt
deriving Repr, DecidableEq

/-- The quota test of openai_service.py:216 on a lowercased error string. -/
def isQuotaMsg (msg : String) : Bool :=
  let m := lowerStr msg
  strContainsSub m "quota" || strContainsSub m "insufficient_quota"
    || strContainsSub m "billing" || strContainsSub m "rate_limit"

/-- The retry-exhaustion default verdict (openai_service.py:237-241):
only the three core fields, no enrichment. -/
def defaultCatResult : CatResult :=
  ⟨false, "low", "Failed to analyze due to API errors", none⟩

/-- The retry loop of `categorize_channel`: `fuel` is `max_retries -
retry_count`, `k` the current `retry_count`.  A quota/billing request error
re-raises (`.error`); every other failure increments the counter and
retries; exhaustion returns the safe default. -/
def categorizeGo (attempts : Nat → Attempt) : Nat → Nat → Except String CatResult
  | 0, _ => .ok defaultCatResult
  | Nat.succ fuel, k =>
    match attempts k with
    | .success r => .ok r
    | .requestError msg =>
      if isQuotaMsg msg then .error ("OpenAI quota exceeded: " ++ msg)
      else categorizeGo attempts fuel (k + 1)
    | _ => categorizeGo attempts fuel (k + 1)

/-- `OpenAIService.categorize_channel` with the default `max_retries=3`
(openai_service.py:95-241), parametrized by the outcome of each attempt. -/
def categorize_channel (attempts : Nat → Attempt) : Except String CatResult :=
  categorizeGo attempts 3 0

/-! ### Batch Scheduler (main.py: `process_channel_batch_combined` and Step 7) -/

/-- What processing one channel of a batch observes: the metadata fetch can
raise (e.g. the YouTube 403 quota re-raise, youtube_service.py:175-178) or
return `None` (main.py:50-52); the classifier call can raise the quota
exception (openai_service.py:218) or return a verdict — including the
retry-exhaustion default, which is a normal return. -/
inductive ChanEvent where
  | metaRaise : String → ChanEvent
  | metaNone : ChanEvent
  | classifyRaise : String → ChanEvent
  | ok : String → CatResult → ChanEvent
deriving Repr, DecidableEq

/-- The body of the per-channel loop, before its `except` clause:
`.error` is a raised exception, `.ok none` the metadata-missing skip,
`.ok (some row)` a completed categorization. -/
def processOneChannel (beh : String → ChanEvent) (u : String) :
    Except String (Option CatRow) :=
  match beh u with
  | .metaRaise msg => .error msg
  | .classifyRaise msg => .error msg
  | .metaNone => .ok none
  | .ok name cat => .ok (some ⟨u, name, cat⟩)

/-- `process_channel_batch_combined` (main.py:29-73).  The per-channel
`try`/`except Exception` catches every raised exception — the quota
re-raise from the Classifier or Metadata Resolver included — logs it and
continues with the next channel, so the function itself never raises.
Each completed row is also saved immediately to Firestore
(`batch_save_categories([categorization])`, main.py:64); the rows saved
over the batch are exactly the returned rows. -/
def process_channel_batch_combined (beh : String → ChanEvent) :
    List String → List CatRow
  | [] => []
  | u :: rest =>
    match processOneChannel beh u with
    | .error _ => process_channel_batch_combined beh rest
    | .ok none => process_channel_batch_combined beh rest
    | .ok (some row) => row :: process_channel_batch_combined beh rest

/-- What the Step 7 `try` at main.py:301-305 observes when calling
`process_channel_batch_combined`: since that function catches every
per-channel exception internally, the call always returns normally. -/
def batchTry (beh : String → ChanEvent) (urls : List String) :
    Except String (List CatRow) :=
  .ok (process_channel_batch_combined beh urls)

/-- The Step 7 batch loop (main.py:274-314) over `channels_to_analyze`:
batches of `BATCH_SIZE = 100`; before each batch the elapsed wall clock is
checked (`timedOut` takes the 1-based batch number); the `except` branch is
the quota handler of main.py:307-314, which would set the `quota_exceeded`
flag and break on a quota-marked exception and continue otherwise.
Returns the processed rows and the final `quota_exceeded` flag, which the
run summary surfaces (main.py:480-488). -/
def step7Go (timedOut : Nat → Bool) (beh : String → ChanEvent) :
    Nat → List (List String) → List CatRow → List CatRow × Bool
  | _, [], acc => (acc, false)
  | bn, b :: bs, acc =>
    if timedOut bn then (acc, false)
    else
      match batchTry beh b with
      | .ok rs => step7Go timedOut beh (bn + 1) bs (acc ++ rs)
      | .error msg =>
        if strContainsSub (lowerStr msg) "quota" then (acc, true)
        else step7Go timedOut beh (bn + 1) bs acc

/-- Step 7 of `process_dv360_report`. -/
def step7 (timedOut : Nat → Bool) (beh : String → ChanEvent)
    (channels : List String) : List CatRow × Bool :=
  step7Go timedOut beh 1 (chunksOf 100 channels) []

/-! ### List Builder (main.py Step 9 and
`CSVProcessor.create_inclusion_list` / `create_exclusion_list`) -/

/-- One element of `all_firestore_channels` as the list builder consumes it:
a document dict.  `impressions`/`advertisers`/`insertion_orders` are
`Option` because those keys exist only if the Step 9 merge loop
(main.py:412-423) copied them in from a current-run result — the persisted
schema (`SavedRecord`) has no such fields. -/
structure FsChannel where
  channel_url : String
  channel_name : String
  is_children_content : Bool
  confidence : String
  reasoning : String
  impressions : Option Int
  advertisers : Option (List (Option String))
  insertion_orders : Option (List (Option String))
deriving Repr, DecidableEq

/-- Modelled from the spec: `get_all() -> all records` (used for cumulative
list-building across runs).  `FirestoreService.get_all_channels` is invoked
at main.py:408 but no such method exists in
src/services/firestore_service.py; per the spec it is the full scan
returning every persisted CategoryRecord.  The documents carry exactly the
schema `batch_save_categories` writes, which has no impressions/advertiser
fields, so those keys are absent (`none`). -/
def get_all_channels (store : List SavedRecord) : List FsChannel :=
  store.map (fun s =>
    ⟨s.channel_url, s.channel_name, s.is_children_content, s.confidence,
     s.reasoning, none, none, none⟩)

/-- One pass of the Step 9 merge loop body (main.py:413-423): copy the
current-run aggregates onto the first store document with a matching URL
(`break` after the first hit); every run result carries the three keys. -/
def updFirst (fs : List FsChannel) (r : RunResult) : List FsChannel :=
  match fs with
  | [] => []
  | c :: rest =>
    if c.channel_url == r.channel_url then
      { c with impressions := some r.impressions,
               advertisers := some r.advertisers,
               insertion_orders := some r.insertion_orders } :: rest
    else c :: updFirst rest r

/-- The Step 9 merge loop (main.py:412-423): fold every current-run result
into the full store scan. -/
def mergeRunIntoStore (fs : List FsChannel) (finals : List RunResult) : List FsChannel :=
  finals.foldl updFirst fs

/-- `channel_url.split('/')[-1] if '/channel/' in channel_url else ''`
(csv_processor.py:356, 470). -/
def channelIdOf (url : String) : String :=
  if strContainsSub url "/channel/" then
    strOf ((splitOnPred (· = '/') url.data).getLastD [])
  else ""

/-- The `safe_channels` filter of `create_inclusion_list`
(csv_processor.py:311). -/
def safe_channels (rs : List FsChannel) : List FsChannel :=
  rs.filter (fun r => !r.is_children_content)

/-- The `children_channels` filter of `create_exclusion_list`
(csv_processor.py:423). -/
def children_channels (rs : List FsChannel) : List FsChannel :=
  rs.filter (fun r => r.is_children_content)

/-- An inclusion-list CSV row (csv_processor.py:368-402), restricted to the
identity, impressions and core classification columns; the enrichment and
`full_analysis.*` columns (all `result.get(..., 'No data')` projections of
fields no claim mentions) are not modelled. -/
structure InclusionRow where
  channel_name : String
  channel_url : String
  channel_id : String
  impressions : Int
  is_children_content : Bool
  confidence : String
  reasoning : String
deriving Repr, DecidableEq

/-- One written inclusion row: note `'impressions': result.get('impressions', 0)`
(csv_processor.py:372) — a record without the key yields 0. -/
def toInclusionRow (r : FsChannel) : InclusionRow :=
  ⟨r.channel_name, r.channel_url, channelIdOf r.channel_url,
   r.impressions.getD 0, r.is_children_content, r.confidence, r.reasoning⟩

/-- `CSVProcessor.create_inclusion_list` (csv_processor.py:299-409): filter
the safe channels, write one row each, return the safe count. -/
def create_inclusion_list (rs : List FsChannel) : List InclusionRow × Nat :=
  ((safe_channels rs).map toInclusionRow, (safe_channels rs).length)

/-- `', '.join(l)`: `none` models the `TypeError` Python raises when the
set contained a `None` entry. -/
def pyJoinComma (l : List (Option String)) : Option String :=
  if l.all (fun x => x.isSome) then
    some (String.intercalate ", " (l.filterMap id))
  else none

/-- `', '.join(result.get(k, [])) if result.get(k) else 'No data'`
(csv_processor.py:487-488): a missing key or an empty list yields the
explicit "No data" sentinel. -/
def advField : Option (List (Option String)) → Option String
  | none => some "No data"
  | some l => if l.isEmpty then some "No data" else pyJoinComma l

/-- An exclusion-list CSV row (csv_processor.py:482-518), restricted as for
`InclusionRow` but with the advertiser/insertion-order columns the claims
mention. -/
structure ExclusionRow where
  channel_name : String
  channel_url : String
  channel_id : String
  impressions : Int
  advertisers : String
  insertion_orders : String
  is_children_content : Bool
  confidence : String
  reasoning : String
deriving Repr, DecidableEq

/-- One written exclusion row; `none` models a raised join `TypeError`. -/
def toExclusionRow (r : FsChannel) : Option ExclusionRow :=
  match advField r.advertisers, advField r.insertion_orders with
  | some a, some io =>
    some ⟨r.channel_name, r.channel_url, channelIdOf r.channel_url,
          r.impressions.getD 0, a, io, r.is_children_content, r.confidence,
          r.reasoning⟩
  | _, _ => none

def allSome : List (Option α) → Option (List α)
  | [] => some []
  | none :: _ => none
  | some a :: rest => (allSome rest).map (fun l => a :: l)

/-- `CSVProcessor.create_exclusion_list` (csv_processor.py:411-525): filter
the flagged channels, write one row each, return the flagged count; a row
exception escapes the writer loop and is re-raised (`.error`). -/
def create_exclusion_list (rs : List FsChannel) :
    Except Unit (List ExclusionRow × Nat) :=
  match allSome ((children_channels rs).map toExclusionRow) with
  | some rows => .ok (rows, (children_channels rs).length)
  | none => .error ()

/-! ### Claims C1 and C2 -/

/-- Claim C1: the orchestrator's Step 9 invokes the full-scan operation
`get_all_channels` on the store object (main.py:408), but `FirestoreService`
defines no method of that name — the call raises `AttributeError`, so the
store does not provide the full-scan operation the claim (and the spec's
`get_all()`) describe. -/
theorem c1_get_all_channels_undefined : step9StoreCall ∉ firestoreServiceMethods := by
  decide

/-- The concrete failing input for Claim C2: 101 channels to classify
(two batches of `BATCH_SIZE = 100`), where the first channel's classifier
call raises the quota exception of openai_service.py:218. -/
def c2Channels : List String := (List.range 101).map (fun i => "ch" ++ toString i)

def c2SampleCat : CatResult := ⟨true, "high", "recent uploads target preschoolers", none⟩

def c2QuotaMsg : String := "OpenAI quota exceeded: Error code 429 insufficient_quota"

def c2Behaviour : String → ChanEvent := fun u =>
  if u == "ch0" then .classifyRaise c2QuotaMsg else .ok u c2SampleCat

/-- Claim C2: a quota-exhaustion exception raised while processing a channel
of the batch loop does NOT stop the remaining batches and does NOT set the
`quota_exceeded` flag.  At the concrete input: the raised message is a
quota signal by the code's own detectors (openai_service.py:216 and the
Step 7 handler's `'quota' in str(e).lower()`), yet the per-channel
`except Exception` of `process_channel_batch_combined` swallows it, the
second batch still runs (channel `ch100`, which lies in batch 2, is
processed) and the returned `quota_exceeded` flag is `false`. -/
theorem c2_quota_swallowed_in_batch_loop :
    isQuotaMsg c2QuotaMsg = true
      ∧ strContainsSub (lowerStr c2QuotaMsg) "quota" = true
      ∧ (step7 (fun _ => false) c2Behaviour c2Channels).2 = false
      ∧ (⟨"ch100", "ch100", c2SampleCat⟩ : CatRow)
          ∈ (step7 (fun _ => false) c2Behaviour c2Channels).1 := by
  refine ⟨by decide, by decide, ?_, ?_⟩ <;> decide

/-! ### Claim C8: extractor output sorted by descending impressions -/

/-- Claim C8: for every input row sequence, whenever extraction succeeds the
output mapping is ordered by non-increasing cumulative impressions — for any
positions i < j, `impressions[j] <= impressions[i]` — with the deterministic
stable tie-break of Python's `sorted`. -/
theorem c8_extractor_sorted_desc (rows : List Row) (out : List (String × ChannelData))
    (h : extract_youtube_channels rows = .ok out) :
    ∀ (i j : Fin out.length), (i : Nat) < (j : Nat) →
      (out.get j).2.impressions ≤ (out.get i).2.impressions := by
  intro i j hij
  have hs : List.Sorted impGe out := by
    unfold extract_youtube_channels at h
    cases hf : foldRows rows [] with
    | error e => rw [hf] at h; cases h
    | ok cd =>
      rw [hf] at h
      simp only [Except.ok.injEq] at h
      rw [← h]
      exact List.sorted_insertionSort impGe cd
  exact List.pairwise_iff_get.mp hs i j hij

/-- The five rows of src/test_csv_optimizations.py: three real channels
(impressions 1000, 5000, 10000, 500, 3000) of which two carry the
"Unknown"/"unknown" placement names. -/
def mkReportRow (url name imp : String) : Row :=
  ⟨[("Placement (All YouTube Channels)", some url),
    ("Placement Name (All YouTube Channels)", some name),
    ("Impressions", some imp),
    ("Advertiser", some "Test Advertiser"),
    ("Insertion Order", some "Test IO")]⟩

def c8Rows : List Row :=
  [mkReportRow "https://www.youtube.com/channel/UCtest1" "Test Channel 1" "1000",
   mkReportRow "https://www.youtube.com/channel/UCtest2" "Unknown" "5000",
   mkReportRow "https://www.youtube.com/channel/UCtest3" "Test Channel 3" "10000",
   mkReportRow "https://www.youtube.com/channel/UCtest4" "Test Channel 4" "500",
   mkReportRow "https://www.youtube.com/channel/UCtest5" "unknown" "3000"]

def c8Out : List (String × ChannelData) :=
  [("https://www.youtube.com/channel/UCtest3",
    ⟨"Test Channel 3", 10000, [some "Test Advertiser"], [some "Test IO"]⟩),
   ("https://www.youtube.com/channel/UCtest1",
    ⟨"Test Channel 1", 1000, [some "Test Advertiser"], [some "Test IO"]⟩),
   ("https://www.youtube.com/channel/UCtest4",
    ⟨"Test Channel 4", 500, [some "Test Advertiser"], [some "Test IO"]⟩)]

/-- Witness for C8 at the repository's own test vector: extraction yields
the three channels in order 10000, 1000, 500, and the sort theorem applies
at the adjacent index pairs. -/
theorem c8_extractor_sorted_desc_witness :
    extract_youtube_channels c8Rows = .ok c8Out
      ∧ (c8Out.get ⟨1, by decide⟩).2.impressions ≤ (c8Out.get ⟨0, by decide⟩).2.impressions
      ∧ (c8Out.get ⟨2, by decide⟩).2.impressions ≤ (c8Out.get ⟨1, by decide⟩).2.impressions := by
  refine ⟨rfl, ?_, ?_⟩
  · exact c8_extractor_sorted_desc c8Rows c8Out rfl ⟨0, by decide⟩ ⟨1, by decide⟩ (by decide)
  · exact c8_extractor_sorted_desc c8Rows c8Out rfl ⟨1, by decide⟩ ⟨2, by decide⟩ (by decide)

/-! ### Claim C9: the safe/flagged lists partition the input -/

/-- Claim C9: for every input result set on which both writers succeed, the
inclusion (safe) and exclusion (flagged) lists partition it — each record
belongs to exactly one of the two filtered sets, determined solely by its
`is_children_content` flag, and the two returned row counts sum to the
input record count. -/
theorem c9_list_builder_partition (rs : List FsChannel)
    (rowsS : List InclusionRow) (cS : Nat) (rowsF : List ExclusionRow) (cF : Nat)
    (hI : create_inclusion_list rs = (rowsS, cS))
    (hE : create_exclusion_list rs = .ok (rowsF, cF)) :
    cS + cF = rs.length
      ∧ ∀ r ∈ rs,
          (r ∈ safe_channels rs ↔ r.is_children_content = false)
          ∧ (r ∈ children_channels rs ↔ r.is_children_content = true)
          ∧ (r ∈ safe_channels rs ∨ r ∈ children_channels rs)
          ∧ ¬(r ∈ safe_channels rs ∧ r ∈ children_channels rs) := by
  have hcS : cS = (safe_channels rs).length := by
    simpa [create_inclusion_list] using congrArg Prod.snd hI.symm
  have hcF : cF = (children_channels rs).length := by
    unfold create_exclusion_list at hE
    cases ha : allSome ((children_channels rs).map toExclusionRow) with
    | none => rw [ha] at hE; cases hE
    | some rows =>
      rw [ha] at hE
      simpa using congrArg Prod.snd (Except.ok.inj hE).symm
  constructor
  · rw [hcS, hcF, safe_channels, children_channels, Nat.add_comm]
    exact (List.length_eq_length_filter_add
      (fun (r : FsChannel) => r.is_children_content)).symm
  · intro r hr
    constructor
    · simp [safe_channels, List.mem_filter, hr]
    constructor
    · simp [children_channels, List.mem_filter, hr]
    constructor
    · by_cases h : r.is_children_content
      · exact Or.inr (by simp [children_channels, List.mem_filter, hr, h])
      · exact Or.inl (by simp [safe_channels, List.mem_filter, hr, h])
    · rintro ⟨h1, h2⟩
      simp only [safe_channels, children_channels, List.mem_filter] at h1 h2
      rw [h2.2] at h1
      cases h1.2

def c9Sample : List FsChannel :=
  [⟨"https://www.youtube.com/channel/UCsafe", "Safe One", false, "high", "adult cooking content",
    some 700, some [some "Acme"], some [some "IO1"]⟩,
   ⟨"https://www.youtube.com/channel/UCkids", "Kids One", true, "high", "nursery rhymes",
    none, none, none⟩]

/-- Witness for C9 at a two-record result set: one safe, one flagged
record; counts 1 + 1 = 2 and exactly-one membership at each record. -/
theorem c9_list_builder_partition_witness :
    (1 : Nat) + 1 = c9Sample.length
      ∧ ∀ r ∈ c9Sample,
          (r ∈ safe_channels c9Sample ↔ r.is_children_content = false)
          ∧ (r ∈ children_channels c9Sample ↔ r.is_children_content = true)
          ∧ (r ∈ safe_channels c9Sample ∨ r ∈ children_channels c9Sample)
          ∧ ¬(r ∈ safe_channels c9Sample ∧ r ∈ children_channels c9Sample) :=
  c9_list_builder_partition c9Sample
    (create_inclusion_list c9Sample).1 1 [⟨"Kids One", "https://www.youtube.com/channel/UCkids",
      "UCkids", 0, "No data", "No data", true, "high", "nursery rhymes"⟩] 1
    rfl rfl

/-! ### Router bucket characterizations (shared by C6, C7, C10, C4) -/

/-- With duplicate-free keys (the input is a Python dict), a key determines
its payload. -/
theorem nodupKeys_eq_of_mem {cd : List (String × ChannelData)}
    (hnd : (cd.map Prod.fst).Nodup) {u : String} {d1 d2 : ChannelData}
    (h1 : (u, d1) ∈ cd) (h2 : (u, d2) ∈ cd) : d1 = d2 := by
  induction cd with
  | nil => cases h1
  | cons p t ih =>
    simp only [List.map_cons, List.nodup_cons] at hnd
    cases h1 with
    | head =>
      cases h2 with
      | head => rfl
      | tail _ h2t => exact absurd (List.mem_map.mpr ⟨(u, d2), h2t, rfl⟩) hnd.1
    | tail _ h1t =>
      cases h2 with
      | head => exact absurd (List.mem_map.mpr ⟨(u, d1), h1t, rfl⟩) hnd.1
      | tail _ h2t => exact ih hnd.2 h1t h2t

theorem mem_auto_flagged_iff (keywords : List String) (cached : List (String × CachedRec))
    (cd : List (String × ChannelData)) (u : String) :
    u ∈ (auto_flagged_new keywords cached cd).map Prod.fst
      ↔ ∃ d, (u, d) ∈ cd ∧ keywordMatch keywords d = true ∧ lookupRec cached u = none := by
  constructor
  · intro h
    obtain ⟨p, hp, hpu⟩ := List.mem_map.mp h
    obtain ⟨a, b⟩ := p
    simp only [auto_flagged_new, keyword_matched, List.mem_filter,
      Option.isNone_iff_eq_none] at hp
    cases hpu
    exact ⟨b, hp.1.1, hp.1.2, hp.2⟩
  · rintro ⟨d, hd, hk, hn⟩
    refine List.mem_map.mpr ⟨(u, d), ?_, rfl⟩
    simp [auto_flagged_new, keyword_matched, List.mem_filter, hd, hk,
      Option.isNone_iff_eq_none, hn]

theorem mem_to_classify_iff (keywords : List String) (cached : List (String × CachedRec))
    (cd : List (String × ChannelData)) (u : String) :
    u ∈ channels_to_analyze keywords cached cd
      ↔ ∃ d, (u, d) ∈ cd ∧ keywordMatch keywords d = false ∧ lookupRec cached u = none := by
  constructor
  · intro h
    obtain ⟨p, hp, hpu⟩ := List.mem_map.mp h
    obtain ⟨a, b⟩ := p
    simp only [channels_to_analyze, needs_analysis, List.mem_filter,
      Option.isNone_iff_eq_none, Bool.not_eq_eq_eq_not, Bool.not_true] at hp
    cases hpu
    exact ⟨b, hp.1.1, hp.1.2, hp.2⟩
  · rintro ⟨d, hd, hk, hn⟩
    refine List.mem_map.mpr ⟨(u, d), ?_, rfl⟩
    simp [channels_to_analyze, needs_analysis, List.mem_filter, hd, hk,
      Option.isNone_iff_eq_none, hn]

theorem mem_cached_bucket_iff (keywords : List String) (cached : List (String × CachedRec))
    (cd : List (String × ChannelData)) (u : String) :
    u ∈ (step6_cached_results keywords cached cd).map RunResult.channel_url
      ↔ ∃ d rc, (u, d) ∈ cd ∧ lookupRec cached u = some rc := by
  constructor
  · intro h
    obtain ⟨r, hr, hru⟩ := List.mem_map.mp h
    rcases List.mem_append.mp hr with hl | hl
    all_goals
      obtain ⟨p, hp, hmk⟩ := List.mem_filterMap.mp hl
      obtain ⟨a, b⟩ := p
      cases hl2 : lookupRec cached a with
      | none => rw [hl2] at hmk; cases hmk
      | some rc =>
        rw [hl2] at hmk
        have hr2 : mkCachedResult a b rc = r := by simpa using hmk
        rw [← hr2] at hru
        simp only [mkCachedResult] at hru
        cases hru
        simp only [keyword_matched, needs_analysis, List.mem_filter] at hp
        exact ⟨b, rc, hp.1, hl2⟩
  · rintro ⟨d, rc, hd, hc⟩
    refine List.mem_map.mpr ⟨mkCachedResult u d rc, ?_, rfl⟩
    by_cases hk : keywordMatch keywords d
    · refine List.mem_append.mpr (Or.inl (List.mem_filterMap.mpr ⟨(u, d), ?_, ?_⟩))
      · simp [keyword_matched, List.mem_filter, hd, hk]
      · show (lookupRec cached u).map (mkCachedResult u d) = some (mkCachedResult u d rc)
        rw [hc]
        rfl
    · refine List.mem_append.mpr (Or.inr (List.mem_filterMap.mpr ⟨(u, d), ?_, ?_⟩))
      · simp [needs_analysis, List.mem_filter, hd, hk]
      · show (lookupRec cached u).map (mkCachedResult u d) = some (mkCachedResult u d rc)
        rw [hc]
        rfl

/-! ### Claim C6: cache precedence over keyword matching -/

/-- Claim C6: for a channel URL with a cached record, even when its
placement name matches a keyword, the Router never puts it in
`auto_flagged_new` or `channels_to_analyze` (so the Classifier is never
invoked for it), it produces a cache-served result, and every result
emitted for it equals the stored record's classification fields together
with this run's aggregates, marked `cached: true`. -/
theorem c6_cache_precedence (keywords : List String) (cached : List (String × CachedRec))
    (cd : List (String × ChannelData)) (url : String) (data : ChannelData) (rec : CachedRec)
    (hmem : (url, data) ∈ cd) (hnd : (cd.map Prod.fst).Nodup)
    (hc : lookupRec cached url = some rec) :
    url ∉ (auto_flagged_new keywords cached cd).map Prod.fst
      ∧ url ∉ channels_to_analyze keywords cached cd
      ∧ (∃ r ∈ step6_cached_results keywords cached cd, r.channel_url = url)
      ∧ ∀ r ∈ step6_cached_results keywords cached cd, r.channel_url = url →
          r = mkCachedResult url data rec := by
  refine ⟨?_, ?_, ?_, ?_⟩
  · intro h
    obtain ⟨d, _, _, hn⟩ := (mem_auto_flagged_iff keywords cached cd url).mp h
    rw [hc] at hn
    cases hn
  · intro h
    obtain ⟨d, _, _, hn⟩ := (mem_to_classify_iff keywords cached cd url).mp h
    rw [hc] at hn
    cases hn
  · have h := (mem_cached_bucket_iff keywords cached cd url).mpr ⟨data, rec, hmem, hc⟩
    obtain ⟨r, hr, hru⟩ := List.mem_map.mp h
    exact ⟨r, hr, hru⟩
  · intro r hr hru
    rcases List.mem_append.mp hr with hl | hl
    all_goals
      obtain ⟨p, hp, hmk⟩ := List.mem_filterMap.mp hl
      obtain ⟨a, b⟩ := p
      cases hl2 : lookupRec cached a with
      | none => rw [hl2] at hmk; cases hmk
      | some rc =>
        rw [hl2] at hmk
        have hr2 : mkCachedResult a b rc = r := by simpa using hmk
        have ha : a = url := by
          rw [← hr2] at hru
          simpa [mkCachedResult] using hru
        subst ha
        simp only [keyword_matched, needs_analysis, List.mem_filter] at hp
        have hb : b = data := nodupKeys_eq_of_mem hnd hp.1 hmem
        have hrc : rc = rec := by
          rw [hl2] at hc
          exact Option.some.inj hc
        rw [← hr2, hb, hrc]

def c6Keywords : List String := ["kids"]

def c6DataX : ChannelData :=
  ⟨"Best KIDS crafts", 900, [some "Acme"], [some "IO1"]⟩

def c6DataY : ChannelData :=
  ⟨"Woodworking weekly", 300, [some "Acme"], [some "IO2"]⟩

def c6RecX : CachedRec :=
  ⟨"Crafts Channel", false, "medium", "adult craft tutorials despite the name"⟩

def c6Input : List (String × ChannelData) :=
  [("https://www.youtube.com/channel/UCX", c6DataX),
   ("https://www.youtube.com/channel/UCY", c6DataY)]

def c6Cached : List (String × CachedRec) :=
  [("https://www.youtube.com/channel/UCX", c6RecX)]

/-- Witness for C6: URL X is keyword-matched ("kids" occurs in its
placement name) and cached with a non-children verdict; the theorem applies
and X is served from cache. -/
theorem c6_cache_precedence_witness :
    keywordMatch c6Keywords c6DataX = true
      ∧ ("https://www.youtube.com/channel/UCX"
          ∉ (auto_flagged_new c6Keywords c6Cached c6Input).map Prod.fst
        ∧ "https://www.youtube.com/channel/UCX"
            ∉ channels_to_analyze c6Keywords c6Cached c6Input
        ∧ (∃ r ∈ step6_cached_results c6Keywords c6Cached c6Input,
            r.channel_url = "https://www.youtube.com/channel/UCX")
        ∧ ∀ r ∈ step6_cached_results c6Keywords c6Cached c6Input,
            r.channel_url = "https://www.youtube.com/channel/UCX" →
              r = mkCachedResult "https://www.youtube.com/channel/UCX" c6DataX c6RecX) :=
  ⟨by decide,
   c6_cache_precedence c6Keywords c6Cached c6Input
     "https://www.youtube.com/channel/UCX" c6DataX c6RecX
     (by decide) (by decide) (by decide)⟩

/-! ### Claim C7: the three Router buckets partition the input -/

/-- Claim C7: with duplicate-free input keys (the input is a Python dict),
a URL is in the input exactly when it is in one of the three buckets
`auto_flagged_new`, cached results, `channels_to_analyze`, and the three
buckets are pairwise disjoint. -/
theorem c7_router_partition (keywords : List String) (cached : List (String × CachedRec))
    (cd : List (String × ChannelData)) (hnd : (cd.map Prod.fst).Nodup) (u : String) :
    (u ∈ cd.map Prod.fst
        ↔ (u ∈ (auto_flagged_new keywords cached cd).map Prod.fst
            ∨ u ∈ (step6_cached_results keywords cached cd).map RunResult.channel_url
            ∨ u ∈ channels_to_analyze keywords cached cd))
      ∧ ¬(u ∈ (auto_flagged_new keywords cached cd).map Prod.fst
          ∧ u ∈ (step6_cached_results keywords cached cd).map RunResult.channel_url)
      ∧ ¬(u ∈ (auto_flagged_new keywords cached cd).map Prod.fst
          ∧ u ∈ channels_to_analyze keywords cached cd)
      ∧ ¬(u ∈ (step6_cached_results keywords cached cd).map RunResult.channel_url
          ∧ u ∈ channels_to_analyze keywords cached cd) := by
  refine ⟨⟨?_, ?_⟩, ?_, ?_, ?_⟩
  · intro h
    obtain ⟨p, hp, hpu⟩ := List.mem_map.mp h
    obtain ⟨a, b⟩ := p
    cases hpu
    cases hl : lookupRec cached a with
    | some rc =>
      exact Or.inr (Or.inl ((mem_cached_bucket_iff keywords cached cd a).mpr ⟨b, rc, hp, hl⟩))
    | none =>
      by_cases hk : keywordMatch keywords b
      · exact Or.inl ((mem_auto_flagged_iff keywords cached cd a).mpr ⟨b, hp, hk, hl⟩)
      · exact Or.inr (Or.inr ((mem_to_classify_iff keywords cached cd a).mpr
          ⟨b, hp, Bool.not_eq_true _ ▸ eq_false_of_ne_true hk, hl⟩))
  · intro h
    rcases h with h | h | h
    · obtain ⟨d, hd, _, _⟩ := (mem_auto_flagged_iff keywords cached cd u).mp h
      exact List.mem_map.mpr ⟨(u, d), hd, rfl⟩
    · obtain ⟨d, rc, hd, _⟩ := (mem_cached_bucket_iff keywords cached cd u).mp h
      exact List.mem_map.mpr ⟨(u, d), hd, rfl⟩
    · obtain ⟨d, hd, _, _⟩ := (mem_to_classify_iff keywords cached cd u).mp h
      exact List.mem_map.mpr ⟨(u, d), hd, rfl⟩
  · rintro ⟨h1, h2⟩
    obtain ⟨d, _, _, hn⟩ := (mem_auto_flagged_iff keywords cached cd u).mp h1
    obtain ⟨d2, rc, _, hs⟩ := (mem_cached_bucket_iff keywords cached cd u).mp h2
    rw [hn] at hs
    cases hs
  · rintro ⟨h1, h2⟩
    obtain ⟨d, hd, hk, _⟩ := (mem_auto_flagged_iff keywords cached cd u).mp h1
    obtain ⟨d2, hd2, hk2, _⟩ := (mem_to_classify_iff keywords cached cd u).mp h2
    rw [nodupKeys_eq_of_mem hnd hd hd2] at hk
    rw [hk] at hk2
    cases hk2
  · rintro ⟨h1, h2⟩
    obtain ⟨d, rc, _, hs⟩ := (mem_cached_bucket_iff keywords cached cd u).mp h1
    obtain ⟨d2, _, _, hn⟩ := (mem_to_classify_iff keywords cached cd u).mp h2
    rw [hn] at hs
    cases hs

/-- Witness for C7 at the concrete two-channel router input of the C6
witness, instantiated at the keyword-matched cached URL X. -/
theorem c7_router_partition_witness :
    ("https://www.youtube.com/channel/UCX" ∈ c6Input.map Prod.fst
        ↔ ("https://www.youtube.com/channel/UCX"
              ∈ (auto_flagged_new c6Keywords c6Cached c6Input).map Prod.fst
            ∨ "https://www.youtube.com/channel/UCX"
              ∈ (step6_cached_results c6Keywords c6Cached c6Input).map RunResult.channel_url
            ∨ "https://www.youtube.com/channel/UCX"
              ∈ channels_to_analyze c6Keywords c6Cached c6Input))
      ∧ ¬("https://www.youtube.com/channel/UCX"
            ∈ (auto_flagged_new c6Keywords c6Cached c6Input).map Prod.fst
          ∧ "https://www.youtube.com/channel/UCX"
            ∈ (step6_cached_results c6Keywords c6Cached c6Input).map RunResult.channel_url)
      ∧ ¬("https://www.youtube.com/channel/UCX"
            ∈ (auto_flagged_new c6Keywords c6Cached c6Input).map Prod.fst
          ∧ "https://www.youtube.com/channel/UCX"
            ∈ channels_to_analyze c6Keywords c6Cached c6Input)
      ∧ ¬("https://www.youtube.com/channel/UCX"
            ∈ (step6_cached_results c6Keywords c6Cached c6Input).map RunResult.channel_url
          ∧ "https://www.youtube.com/channel/UCX"
            ∈ channels_to_analyze c6Keywords c6Cached c6Input) :=
  c7_router_partition c6Keywords c6Cached c6Input (by decide)
    "https://www.youtube.com/channel/UCX"

/-! ### Claim C10: partial batched cache lookup, misses re-routed -/

/-- Stated from the claim's words, for comparison with
`batch_get_cached_categories`: the mapping accumulated before the failure,
i.e. the found pairs of the batches wholly completed before the first batch
containing a raising read. -/
def claimedPartialMapping (fetch : String → FetchOutcome) (urls : List String) :
    List (String × CachedRec) :=
  ((chunksOf 500 urls).takeWhile (fun c => !(c.any (fun u => (fetch u).isErr)))).flatMap
    (fun c => c.filterMap (pairOf fetch))

theorem batchGetAux_eq_takeWhile (fetch : String → FetchOutcome) (cs : List (List String)) :
    batchGetAux fetch cs
      = (cs.takeWhile (fun c => !(c.any (fun u => (fetch u).isErr)))).flatMap
          (fun c => c.filterMap (pairOf fetch)) := by
  induction cs with
  | nil => rfl
  | cons c rest ih =>
    by_cases h : c.any (fun u => (fetch u).isErr)
    · simp [batchGetAux, processChunk, h, List.takeWhile_cons]
    · simp [batchGetAux, processChunk, h, List.takeWhile_cons, ih]

/-- Claim C10: `batch_get_cached_categories` never raises and returns
exactly the partial mapping accumulated before the first failing read
batch; and, in the Router, every input channel missing from the returned
mapping is treated as a cache miss — it lands in `auto_flagged_new`
(keyword match, deterministic re-classification) or in
`channels_to_analyze` (sent to the Classifier), never in the cached
bucket. -/
theorem c10_batch_get_partial_and_rerouted (fetch : String → FetchOutcome)
    (urls : List String) (keywords : List String) (cd : List (String × ChannelData)) :
    batch_get_cached_categories fetch urls = claimedPartialMapping fetch urls
      ∧ ∀ u ∈ cd.map Prod.fst,
          lookupRec (batch_get_cached_categories fetch (cd.map Prod.fst)) u = none →
            (u ∈ (auto_flagged_new keywords
                    (batch_get_cached_categories fetch (cd.map Prod.fst)) cd).map Prod.fst
              ∨ u ∈ channels_to_analyze keywords
                  (batch_get_cached_categories fetch (cd.map Prod.fst)) cd) := by
  constructor
  · exact batchGetAux_eq_takeWhile fetch (chunksOf 500 urls)
  · intro u hu hmiss
    obtain ⟨p, hp, hpu⟩ := List.mem_map.mp hu
    obtain ⟨a, b⟩ := p
    cases hpu
    by_cases hk : keywordMatch keywords b
    · exact Or.inl ((mem_auto_flagged_iff keywords _ cd a).mpr ⟨b, hp, hk, hmiss⟩)
    · exact Or.inr ((mem_to_classify_iff keywords _ cd a).mpr
        ⟨b, hp, Bool.not_eq_true _ ▸ eq_false_of_ne_true hk, hmiss⟩)

def c10DataA : ChannelData := ⟨"Gaming nightly", 800, [some "Acme"], [some "IO1"]⟩

def c10DataB : ChannelData := ⟨"Cooking for adults", 400, [some "Acme"], [some "IO2"]⟩

def c10Input : List (String × ChannelData) :=
  [("https://www.youtube.com/channel/UCA", c10DataA),
   ("https://www.youtube.com/channel/UCB", c10DataB)]

/-- A fetch behaviour whose read of channel A raises: the single 500-URL
batch aborts, so the returned mapping is empty. -/
def c10Fetch : String → FetchOutcome := fun u =>
  if u == "https://www.youtube.com/channel/UCA" then .err else .missing

/-- Witness for C10: with a raising read in the only batch, the returned
mapping equals the claimed partial accumulation (here empty), and channel B
— absent from the mapping — is routed to `channels_to_analyze`. -/
theorem c10_batch_get_partial_and_rerouted_witness :
    batch_get_cached_categories c10Fetch (c10Input.map Prod.fst)
        = claimedPartialMapping c10Fetch (c10Input.map Prod.fst)
      ∧ ("https://www.youtube.com/channel/UCB"
            ∈ (auto_flagged_new ["kids"]
                (batch_get_cached_categories c10Fetch (c10Input.map Prod.fst))
                c10Input).map Prod.fst
          ∨ "https://www.youtube.com/channel/UCB"
            ∈ channels_to_analyze ["kids"]
                (batch_get_cached_categories c10Fetch (c10Input.map Prod.fst)) c10Input) :=
  ⟨(c10_batch_get_partial_and_rerouted c10Fetch (c10Input.map Prod.fst) ["kids"] c10Input).1,
   (c10_batch_get_partial_and_rerouted c10Fetch (c10Input.map Prod.fst) ["kids"] c10Input).2
     "https://www.youtube.com/channel/UCB" (by decide) (by decide)⟩

/-! ### Claim C3: malformed rows in extraction -/

/-- The recognized skip conditions of the extraction row loop: no usable
placement text, no recognizable YouTube URL, or the "unknown" placement
name (csv_processor.py:95-111).  These rows leave the accumulator
untouched. -/
def rowSkipped (r : Row) : Bool :=
  let placement := placementOf r
  if placement.isEmpty || !(strContainsSub (lowerStr placement) "youtube.com") then true
  else
    match extractChannelUrl placement with
    | none => true
    | some _ =>
      match placementNameOf r with
      | none => false
      | some pname => lowerStr (stripWs pname) == "unknown"

/-- The one row shape whose processing raises: a recognizable YouTube URL
but a Python-`None` placement-name cell (a short CSV row), on which
`placement_name.strip()` (csv_processor.py:108) raises `AttributeError`. -/
def rowRaises (r : Row) : Bool :=
  !((placementOf r).isEmpty || !(strContainsSub (lowerStr (placementOf r)) "youtube.com"))
    && (extractChannelUrl (placementOf r)).isSome && (placementNameOf r).isNone

theorem processRow_skip (r : Row) (cd : List (String × ChannelData))
    (h : rowSkipped r = true) : processRow cd r = .ok cd := by
  by_cases h1 : ((placementOf r).isEmpty
      || !(strContainsSub (lowerStr (placementOf r)) "youtube.com")) = true
  · simp [processRow, h1]
  · cases hx : extractChannelUrl (placementOf r) with
    | none => simp [processRow, h1, hx]
    | some url =>
      cases hn : placementNameOf r with
      | none =>
        exfalso
        simp [rowSkipped, h1, hx, hn] at h
      | some pname =>
        have h2 : (lowerStr (stripWs pname) == "unknown") = true := by
          simpa [rowSkipped, h1, hx, hn] using h
        simp [processRow, h1, hx, hn, h2]

theorem processRow_raises (r : Row) (cd : List (String × ChannelData))
    (h : rowRaises r = true) : processRow cd r = .error () := by
  simp only [rowRaises, Bool.and_eq_true, Option.isSome_iff_exists,
    Option.isNone_iff_eq_none] at h
  obtain ⟨⟨h1, url, hx⟩, hn⟩ := h
  have hcond : ((placementOf r).isEmpty
      || !(strContainsSub (lowerStr (placementOf r)) "youtube.com")) = false := by
    simpa using h1
  simp [processRow, hcond, hx, hn]

theorem foldRows_append (l1 l2 : List Row) (acc : List (String × ChannelData)) :
    foldRows (l1 ++ l2) acc
      = match foldRows l1 acc with
        | .error e => .error e
        | .ok a => foldRows l2 a := by
  induction l1 generalizing acc with
  | nil => rfl
  | cons r rest ih =>
    simp only [List.cons_append, foldRows]
    cases processRow acc r with
    | error e => rfl
    | ok a => exact ih a

/-- Claim C3 as amended: rows malformed in the recognized ways — no usable
placement, no recognizable YouTube URL, or the "unknown" sentinel name —
are skipped and extraction of the remaining rows completes unchanged; but a
row with a recognizable URL whose placement-name cell is null raises, and
— there being no per-row exception recovery — the whole extraction aborts,
losing the remaining rows. -/
theorem c3_extraction_row_failures :
    (∀ (l1 l2 : List Row) (r : Row), rowSkipped r = true →
        extract_youtube_channels (l1 ++ r :: l2) = extract_youtube_channels (l1 ++ l2))
      ∧ (∀ (l1 l2 : List Row) (r : Row) (acc : List (String × ChannelData)),
          rowRaises r = true → foldRows l1 [] = .ok acc →
            extract_youtube_channels (l1 ++ r :: l2) = .error ()) := by
  constructor
  · intro l1 l2 r h
    unfold extract_youtube_channels
    rw [foldRows_append l1 (r :: l2) [], foldRows_append l1 l2 []]
    cases foldRows l1 [] with
    | error e => rfl
    | ok a => simp only [foldRows, processRow_skip r a h]
  · intro l1 l2 r acc hr hok
    unfold extract_youtube_channels
    rw [foldRows_append l1 (r :: l2) [], hok]
    simp only [foldRows, processRow_raises r acc hr]

def c3GoodRow1 : Row :=
  mkReportRow "https://www.youtube.com/channel/UCgood1" "Good One" "2,000"

def c3GoodRow2 : Row :=
  mkReportRow "https://www.youtube.com/channel/UCgood2" "Good Two" "100"

/-- A short CSV row: `DictReader` filled the placement-name column with
`None`. -/
def c3BadRow : Row :=
  ⟨[("Placement (All YouTube Channels)", some "https://www.youtube.com/channel/UCbad"),
    ("Placement Name (All YouTube Channels)", none),
    ("Impressions", none)]⟩

/-- A row skipped by the recognized "unknown" sentinel. -/
def c3SkipRow : Row :=
  mkReportRow "https://www.youtube.com/channel/UCskip" "Unknown" "5000"

/-- Counterexample to Claim C3 as stated: one malformed row (null
placement-name cell) aborts the whole read — the rows around it, which
alone extract fine, are lost. -/
theorem c3_counterexample_bad_row_aborts :
    extract_youtube_channels [c3GoodRow1, c3BadRow, c3GoodRow2] = .error ()
      ∧ extract_youtube_channels [c3GoodRow1, c3GoodRow2]
          = .ok [("https://www.youtube.com/channel/UCgood1",
                  ⟨"Good One", 2000, [some "Test Advertiser"], [some "Test IO"]⟩),
                 ("https://www.youtube.com/channel/UCgood2",
                  ⟨"Good Two", 100, [some "Test Advertiser"], [some "Test IO"]⟩)] :=
  ⟨rfl, rfl⟩

/-- Witness for the amended C3, at one skipped row and one raising row. -/
theorem c3_extraction_row_failures_witness :
    extract_youtube_channels ([c3GoodRow1] ++ c3SkipRow :: [c3GoodRow2])
        = extract_youtube_channels ([c3GoodRow1] ++ [c3GoodRow2])
      ∧ extract_youtube_channels ([c3GoodRow1] ++ c3BadRow :: [c3GoodRow2]) = .error () :=
  ⟨c3_extraction_row_failures.1 [c3GoodRow1] [c3GoodRow2] c3SkipRow (by decide),
   c3_extraction_row_failures.2 [c3GoodRow1] [c3GoodRow2] c3BadRow
     [("https://www.youtube.com/channel/UCgood1",
       ⟨"Good One", 2000, [some "Test Advertiser"], [some "Test IO"]⟩)]
     (by decide) rfl⟩

/-! ### Claim C4: the retry-exhaustion default and its persistence -/

/-- An attempt outcome that neither succeeds nor raises the quota
exception: the loop retries past it. -/
def attemptFailsRetryable : Attempt → Bool
  | .success _ => false
  | .requestError msg => !isQuotaMsg msg
  | _ => true

theorem categorizeGo_default (attempts : Nat → Attempt)
    (h : ∀ i, attemptFailsRetryable (attempts i) = true) :
    ∀ fuel k, categorizeGo attempts fuel k = .ok defaultCatResult := by
  intro fuel
  induction fuel with
  | zero => intro k; rfl
  | succ f ih =>
    intro k
    unfold categorizeGo
    cases hA : attempts k with
    | success r =>
      have := h k
      rw [hA] at this
      cases this
    | requestError msg =>
      have hq := h k
      rw [hA] at hq
      simp only [attemptFailsRetryable, Bool.not_eq_true'] at hq
      simp only [hq, Bool.false_eq_true, if_false]
      exact ih (k + 1)
    | invalidFormat => exact ih (k + 1)
    | jsonError => exact ih (k + 1)
    | otherError => exact ih (k + 1)

/-- No document read of an in-memory store ever raises. -/
theorem fetchOfStore_not_err (store : List SavedRecord) (x : String) :
    ((fetchOfStore store) x).isErr = false := by
  cases hfind : List.find? (fun s => s.channel_url == x) store with
  | none => simp [fetchOfStore, hfind, FetchOutcome.isErr]
  | some s => simp [fetchOfStore, hfind, FetchOutcome.isErr]

theorem chunksOfAux_join (n : Nat) (hn : 0 < n) :
    ∀ fuel (l : List α), l.length ≤ fuel → (chunksOfAux n fuel l).flatMap id = l := by
  intro fuel
  induction fuel with
  | zero =>
    intro l h
    cases l with
    | nil => rfl
    | cons a t => simp at h
  | succ f ih =>
    intro l h
    cases l with
    | nil => rfl
    | cons a t =>
      simp only [chunksOfAux, List.flatMap_cons, id]
      rw [ih ((a :: t).drop n) (by simp only [List.length_drop, List.length_cons] at h ⊢; omega)]
      exact List.take_append_drop n (a :: t)

theorem chunksOf_join (n : Nat) (hn : 0 < n) (l : List α) :
    (chunksOf n l).flatMap id = l :=
  chunksOfAux_join n hn l.length l le_rfl

theorem batchGetAux_clean (fetch : String → FetchOutcome)
    (hne : ∀ x, (fetch x).isErr = false) (cs : List (List String)) :
    batchGetAux fetch cs = (cs.flatMap id).filterMap (pairOf fetch) := by
  induction cs with
  | nil => rfl
  | cons c rest ih =>
    have hc : (c.any fun u => (fetch u).isErr) = false := by
      simp only [List.any_eq_false]
      exact fun x _ => by simp [hne x]
    simp [batchGetAux, processChunk, hc, ih, List.filterMap_append]

/-- When no read raises, the batched lookup is the found-pair projection of
the whole URL list. -/
theorem batch_get_clean (fetch : String → FetchOutcome)
    (hne : ∀ x, (fetch x).isErr = false) (urls : List String) :
    batch_get_cached_categories fetch urls = urls.filterMap (pairOf fetch) := by
  unfold batch_get_cached_categories
  rw [batchGetAux_clean fetch hne, chunksOf_join 500 (by omega) urls]

theorem lookupRec_filterMap_found (fetch : String → FetchOutcome) (urls : List String)
    (u : String) (rc : CachedRec) (hu : u ∈ urls) (hf : fetch u = .found rc) :
    lookupRec (urls.filterMap (pairOf fetch)) u = some rc := by
  induction urls with
  | nil => cases hu
  | cons a t ih =>
    by_cases ha : a = u
    · subst ha
      simp [lookupRec, List.filterMap_cons, pairOf, hf, List.find?]
    · cases hu with
      | head => exact absurd rfl ha
      | tail _ ht =>
        cases hpa : pairOf fetch a with
        | none => simpa [lookupRec, List.filterMap_cons, hpa] using ih ht
        | some p =>
          have hp1 : p.1 = a := by
            simp only [pairOf] at hpa
            cases hfa : fetch a <;> rw [hfa] at hpa <;> try cases hpa
            rfl
          have : (p.1 == u) = false := by simp [hp1, ha]
          simpa [lookupRec, List.filterMap_cons, hpa, List.find?_cons, this] using ih ht

/-- Claim C4 as amended: exhausting the classifier's bounded retries yields
the safe default (`is_children_content = false`, confidence "low",
reasoning noting the failure) and the run continues; but the default is
persisted through the same `batch_save_categories` path as any ordinary
verdict — an ordinary version-"2.0" record with no distinguishing flag —
so a subsequent run finds it in the cache, serves it from the cached
bucket, and does not send the channel back to the Classifier. -/
theorem c4_default_persisted_and_cached (attempts : Nat → Attempt)
    (h : ∀ i, attemptFailsRetryable (attempts i) = true)
    (url name : String) (data : ChannelData) (cd : List (String × ChannelData))
    (keywords : List String) (hmem : (url, data) ∈ cd) :
    categorize_channel attempts = .ok defaultCatResult
      ∧ batch_save_categories [⟨url, name, defaultCatResult⟩]
          = [⟨url, name, false, "low", "Failed to analyze due to API errors",
              "", "", "", "", true, "", "", "", "", "2.0"⟩]
      ∧ url ∉ channels_to_analyze keywords
          (batch_get_cached_categories
            (fetchOfStore (batch_save_categories [⟨url, name, defaultCatResult⟩]))
            (cd.map Prod.fst)) cd
      ∧ url ∈ (step6_cached_results keywords
          (batch_get_cached_categories
            (fetchOfStore (batch_save_categories [⟨url, name, defaultCatResult⟩]))
            (cd.map Prod.fst)) cd).map RunResult.channel_url := by
  have hsave : batch_save_categories [⟨url, name, defaultCatResult⟩]
      = [⟨url, name, false, "low", "Failed to analyze due to API errors",
          "", "", "", "", true, "", "", "", "", "2.0"⟩] := rfl
  have hfetch : fetchOfStore (batch_save_categories [⟨url, name, defaultCatResult⟩]) url
      = .found ⟨name, false, "low", "Failed to analyze due to API errors"⟩ := by
    rw [hsave]
    simp [fetchOfStore, List.find?]
  have hlook : lookupRec
      (batch_get_cached_categories
        (fetchOfStore (batch_save_categories [⟨url, name, defaultCatResult⟩]))
        (cd.map Prod.fst)) url
      = some ⟨name, false, "low", "Failed to analyze due to API errors"⟩ := by
    rw [batch_get_clean _ (fetchOfStore_not_err _) (cd.map Prod.fst)]
    exact lookupRec_filterMap_found _ (cd.map Prod.fst) url _
      (List.mem_map.mpr ⟨(url, data), hmem, rfl⟩) hfetch
  refine ⟨categorizeGo_default attempts h 3 0, hsave, ?_, ?_⟩
  · intro hmemT
    obtain ⟨d, _, _, hn⟩ := (mem_to_classify_iff _ _ _ _).mp hmemT
    rw [hlook] at hn
    cases hn
  · exact (mem_cached_bucket_iff _ _ _ _).mpr ⟨data, _, hmem, hlook⟩

def c4Url : String := "https://www.youtube.com/channel/UCflaky"

def c4Data : ChannelData := ⟨"Flaky Channel", 250, [some "Acme"], [some "IO1"]⟩

/-- Witness for the amended C4: every attempt fails with a non-quota error;
the default verdict is returned, persisted as an ordinary record, and the
channel is served from cache (not re-classified) next run. -/
theorem c4_default_persisted_and_cached_witness :
    categorize_channel (fun _ => Attempt.otherError) = .ok defaultCatResult
      ∧ batch_save_categories [⟨c4Url, "Flaky Channel", defaultCatResult⟩]
          = [⟨c4Url, "Flaky Channel", false, "low", "Failed to analyze due to API errors",
              "", "", "", "", true, "", "", "", "", "2.0"⟩]
      ∧ c4Url ∉ channels_to_analyze []
          (batch_get_cached_categories
            (fetchOfStore (batch_save_categories [⟨c4Url, "Flaky Channel", defaultCatResult⟩]))
            ([(c4Url, c4Data)].map Prod.fst)) [(c4Url, c4Data)]
      ∧ c4Url ∈ (step6_cached_results []
          (batch_get_cached_categories
            (fetchOfStore (batch_save_categories [⟨c4Url, "Flaky Channel", defaultCatResult⟩]))
            ([(c4Url, c4Data)].map Prod.fst)) [(c4Url, c4Data)]).map RunResult.channel_url :=
  c4_default_persisted_and_cached (fun _ => Attempt.otherError) (fun _ => rfl)
    c4Url "Flaky Channel" c4Data [(c4Url, c4Data)] [] (by decide)

/-- Counterexample to Claim C4 as stated: at this concrete input the
retry-exhaustion default is NOT excluded from persistence (it is written to
the store as an ordinary record) and the channel is NOT retried in the next
run (its `channels_to_analyze` bucket is empty; the verdict is served from
the cache). -/
theorem c4_counterexample_default_locked_in :
    categorize_channel (fun _ => Attempt.otherError) = .ok defaultCatResult
      ∧ batch_save_categories [⟨c4Url, "Flaky Channel", defaultCatResult⟩]
          = [⟨c4Url, "Flaky Channel", false, "low", "Failed to analyze due to API errors",
              "", "", "", "", true, "", "", "", "", "2.0"⟩]
      ∧ channels_to_analyze []
          (batch_get_cached_categories
            (fetchOfStore (batch_save_categories [⟨c4Url, "Flaky Channel", defaultCatResult⟩]))
            [c4Url]) [(c4Url, c4Data)] = []
      ∧ step6_cached_results []
          (batch_get_cached_categories
            (fetchOfStore (batch_save_categories [⟨c4Url, "Flaky Channel", defaultCatResult⟩]))
            [c4Url]) [(c4Url, c4Data)]
          = [⟨c4Url, "Flaky Channel", false, "low", "Failed to analyze due to API errors",
              250, [some "Acme"], [some "IO1"], true⟩] := by
  refine ⟨rfl, rfl, ?_, ?_⟩ <;> decide

/-! ### Claim C5: no carry-over of impressions for store-only channels -/

/-- The list-builder view of one persisted document: the stored schema has
no impressions/advertiser keys. -/
def fsOfSaved (s : SavedRecord) : FsChannel :=
  ⟨s.channel_url, s.channel_name, s.is_children_content, s.confidence,
   s.reasoning, none, none, none⟩

theorem get_all_channels_eq_map (store : List SavedRecord) :
    get_all_channels store = store.map fsOfSaved := rfl

theorem mem_updFirst (fs : List FsChannel) (r : RunResult) (c : FsChannel)
    (hc : c ∈ fs) (hne : ¬(c.channel_url = r.channel_url)) : c ∈ updFirst fs r := by
  induction fs with
  | nil => cases hc
  | cons a t ih =>
    simp only [updFirst]
    by_cases ha : (a.channel_url == r.channel_url) = true
    · rw [if_pos ha]
      cases hc with
      | head =>
        exact absurd (by simpa using ha) hne
      | tail _ ht => exact List.mem_cons_of_mem _ ht
    · rw [if_neg (by simpa using ha)]
      cases hc with
      | head => exact List.mem_cons_self _ _
      | tail _ ht => exact List.mem_cons_of_mem _ (ih ht)

theorem mem_merge_unchanged (finals : List RunResult) (fs : List FsChannel)
    (c : FsChannel) (hc : c ∈ fs)
    (habs : c.channel_url ∉ finals.map RunResult.channel_url) :
    c ∈ mergeRunIntoStore fs finals := by
  induction finals generalizing fs with
  | nil => exact hc
  | cons r t ih =>
    have hne : ¬(c.channel_url = r.channel_url) := by
      intro he
      exact habs (List.mem_map.mpr ⟨r, List.mem_cons_self _ _, he.symm⟩)
    have habs2 : c.channel_url ∉ t.map RunResult.channel_url := by
      intro h2
      obtain ⟨x, hx, hxe⟩ := List.mem_map.mp h2
      exact habs (List.mem_map.mpr ⟨x, List.mem_cons_of_mem _ hx, hxe⟩)
    exact ih (updFirst fs r) (mem_updFirst fs r c hc hne) habs2

/-- Claim C5 as amended: a channel present in the store but absent from the
current run's results still appears in the cumulative list-builder input,
but the persisted schema carries no impressions/advertiser data, so its
emitted rows show impressions 0 and the "No data" sentinel for advertisers
and insertion orders — the last-known run aggregates are not carried over.
(`get_all_channels` itself is modelled from the spec, the method being
absent from the source; the persisted schema is `batch_save_categories`
from the source.) -/
theorem c5_store_only_channels_zeroed (store : List SavedRecord)
    (finals : List RunResult) (s : SavedRecord) (hs : s ∈ store)
    (habs : s.channel_url ∉ finals.map RunResult.channel_url) :
    fsOfSaved s ∈ mergeRunIntoStore (get_all_channels store) finals
      ∧ (fsOfSaved s).impressions = none
      ∧ (toInclusionRow (fsOfSaved s)).impressions = 0
      ∧ (toExclusionRow (fsOfSaved s)).map ExclusionRow.advertisers = some "No data"
      ∧ (toExclusionRow (fsOfSaved s)).map ExclusionRow.insertion_orders = some "No data"
      ∧ (toExclusionRow (fsOfSaved s)).map ExclusionRow.impressions = some 0
      ∧ (s.is_children_content = false →
          toInclusionRow (fsOfSaved s)
            ∈ (create_inclusion_list (mergeRunIntoStore (get_all_channels store) finals)).1) := by
  have hmem : fsOfSaved s ∈ mergeRunIntoStore (get_all_channels store) finals := by
    refine mem_merge_unchanged finals (get_all_channels store) (fsOfSaved s) ?_ habs
    rw [get_all_channels_eq_map]
    exact List.mem_map.mpr ⟨s, hs, rfl⟩
  refine ⟨hmem, rfl, rfl, rfl, rfl, rfl, ?_⟩
  intro hsafe
  refine List.mem_map.mpr ⟨fsOfSaved s, List.mem_filter.mpr ⟨hmem, ?_⟩, rfl⟩
  simp [fsOfSaved, hsafe]

/-- The previous run's categorizations, as they were handed to
`batch_save_categories`: note a `CatRow` has no impressions/advertiser
fields at all (main.py:57-64 saves the categorization before the
impressions are merged in at main.py:317-324). -/
def c5PrevSafe : CatRow :=
  ⟨"https://www.youtube.com/channel/UCB", "ChanB", ⟨false, "high", "adult woodworking", none⟩⟩

def c5PrevKids : CatRow :=
  ⟨"https://www.youtube.com/channel/UCK", "ChanK", ⟨true, "high", "nursery rhymes", none⟩⟩

def c5Store : List SavedRecord := batch_save_categories [c5PrevSafe, c5PrevKids]

/-- Counterexample to Claim C5 as stated: both channels live in the store
(saved in a previous run that did have real impression aggregates, which
the save path provably never receives) and are absent from the current
run's results; the emitted rows carry impressions 0 and advertisers
"No data" — zeroed, not carried over. -/
theorem c5_counterexample_no_carry_over :
    create_inclusion_list (mergeRunIntoStore (get_all_channels c5Store) [])
        = ([⟨"ChanB", "https://www.youtube.com/channel/UCB", "UCB", 0, false, "high",
             "adult woodworking"⟩], 1)
      ∧ create_exclusion_list (mergeRunIntoStore (get_all_channels c5Store) [])
          = .ok ([⟨"ChanK", "https://www.youtube.com/channel/UCK", "UCK", 0, "No data",
                   "No data", true, "high", "nursery rhymes"⟩], 1) :=
  ⟨rfl, rfl⟩

/-- Witness for the amended C5 at the concrete store of the counterexample,
with an empty current run. -/
theorem c5_store_only_channels_zeroed_witness :
    fsOfSaved (saveDataOf c5PrevSafe) ∈ mergeRunIntoStore (get_all_channels c5Store) []
      ∧ (fsOfSaved (saveDataOf c5PrevSafe)).impressions = none
      ∧ (toInclusionRow (fsOfSaved (saveDataOf c5PrevSafe))).impressions = 0
      ∧ (toExclusionRow (fsOfSaved (saveDataOf c5PrevSafe))).map ExclusionRow.advertisers
          = some "No data"
      ∧ (toExclusionRow (fsOfSaved (saveDataOf c5PrevSafe))).map ExclusionRow.insertion_orders
          = some "No data"
      ∧ (toExclusionRow (fsOfSaved (saveDataOf c5PrevSafe))).map ExclusionRow.impressions
          = some 0
      ∧ ((saveDataOf c5PrevSafe).is_children_content = false →
          toInclusionRow (fsOfSaved (saveDataOf c5PrevSafe))
            ∈ (create_inclusion_list (mergeRunIntoStore (get_all_channels c5Store) [])).1) :=
  c5_store_only_channels_zeroed c5Store [] (saveDataOf c5PrevSafe) (by decide) (by decide)
